import Mathlib

/-!
Verification development for the data-access layer of `srt-fbo-scraper`
(`utils/db/db_utils.py`).  The Python module is sequential CRUD glue over
SQLAlchemy: a connection-string resolver, a transactional `session_scope`
context manager, lookup/seed helpers for notice types and notices, a
nightly-ingestion workflow, and a few aggregate queries.

The embedding below models the committed database as an explicit value of
type `DB`, a session as its committed snapshot plus pending (uncommitted)
objects, and `session_scope` as a function recording which session methods
(`commit`, `rollback`, `close`) run on each exit path.  Fallible Python
operations (`None.replace`, `int(None)`, a failing `session.commit`) are
embedded as `Except`.
-/

namespace SrtFbo

/-- Database-level errors surfaced by a failing `session.commit()`. -/
inductive DbErr where
  | uniqueViolation
  deriving DecidableEq, Repr

/-- Python exceptions relevant to this module: `AttributeError` (attribute
access on `None`), `TypeError` (`int(None)`), and database errors raised
out of `commit`. -/
inductive PyErr where
  | attributeError
  | typeError
  | dbError (e : DbErr)
  deriving DecidableEq, Repr

/-- Modelled from the spec: the `NoticeType` mapped class lives in
`utils/db/db.py`, which is not under `src/`; §3 of the spec gives it an
integer primary key and a category code, unique among the fixed
vocabulary. -/
structure NoticeTypeRow where
  id : Nat
  notice_type : String
  deriving DecidableEq, Repr

/-- Modelled from the spec: the `Notice` mapped class (in the missing
`utils/db/db.py`) has an id, a unique solicitation number, an agency, a
free-form payload and a compliance flag; the compliance flag is summable,
so it is carried as an integer. -/
structure NoticeRow where
  id : Nat
  notice_number : String
  agency : String
  notice_data : String
  compliant : Int
  deriving DecidableEq, Repr

/-- Modelled from the spec: the `Attachment` mapped class (in the missing
`utils/db/db.py`): id, owning-notice foreign key, prediction score,
decision boundary, url, text, nullable human-validation flag, trained
flag. -/
structure AttachmentRow where
  id : Nat
  notice_id : Nat
  prediction : Int
  decision_boundary : Int
  attachment_url : String
  attachment_text : String
  validation : Option Int
  trained : Bool
  deriving DecidableEq, Repr

/-- Modelled from the spec: a row of the Notice↔NoticeType many-to-many
association table (§3, §6). -/
structure LinkRow where
  notice_id : Nat
  notice_type_id : Nat
  deriving DecidableEq, Repr

/-- The committed relational state: the four tables the claims touch plus
the serial-id counters (PostgreSQL serials start at 1). -/
structure DB where
  notice_types : List NoticeTypeRow
  notices : List NoticeRow
  attachments : List AttachmentRow
  links : List LinkRow
  next_notice_type_id : Nat
  next_notice_id : Nat
  next_attachment_id : Nat
  deriving DecidableEq, Repr

/-- A freshly created schema: empty tables, serial counters at 1. -/
def emptyDB : DB :=
  { notice_types := [], notices := [], attachments := [], links := []
    next_notice_type_id := 1, next_notice_id := 1, next_attachment_id := 1 }

/-! ### `get_db_url` -/

/-- The three environment variables `get_db_url` reads; `none` means the
variable is unset (`os.getenv` returns `None`). -/
structure PyEnv where
  vcap_application : Option String
  database_url : Option String
  test_db_url : Option String
  deriving DecidableEq, Repr

/-- Python truthiness of an `os.getenv` result: `None` and the empty
string are falsy. -/
def truthy : Option String → Bool
  | none => false
  | some s => !(s == "")

/-- Whether `p` is a prefix of `s`, on character lists. -/
def isPrefixList : List Char → List Char → Bool
  | [], _ => true
  | _ :: _, [] => false
  | p :: ps, c :: cs => p == c && isPrefixList ps cs

/-- Fuel-indexed worker for `pyReplace`: scan left to right, replacing
each non-overlapping occurrence of `pat`, as Python `str.replace` does. -/
def pyReplaceAux (pat rep : List Char) : Nat → List Char → List Char
  | _, [] => []
  | 0, s => s
  | fuel + 1, c :: cs =>
    if isPrefixList pat (c :: cs) then
      rep ++ pyReplaceAux pat rep fuel ((c :: cs).drop pat.length)
    else
      c :: pyReplaceAux pat rep fuel cs

/-- Python `s.replace(pat, rep)` for a non-empty pattern. -/
def pyReplace (s pat rep : String) : String :=
  ⟨pyReplaceAux pat.data rep.data s.data.length s.data⟩

/-- `get_db_url`: pick `DATABASE_URL` when `VCAP_APPLICATION` is truthy,
else `TEST_DB_URL` when truthy, else `''`; then run
`db_string.replace('\postgresql', 'postgresql+psycopg2')`.  The Python
pattern string contains a literal backslash (`\p` is not an escape), and
when the first branch is taken with `DATABASE_URL` unset, `db_string` is
`None` and the `.replace` attribute access raises `AttributeError`. -/
def get_db_url (env : PyEnv) : Except PyErr String :=
  let db_string : Option String :=
    if truthy env.vcap_application then env.database_url
    else if truthy env.test_db_url then env.test_db_url
    else some ""
  match db_string with
  | none => .error .attributeError
  | some s => .ok (pyReplace s "\\postgresql" "postgresql+psycopg2")

/-! ### Sessions and `session_scope` -/

/-- One attachment dict of the nightly payload (`doc` in the source):
the six keys `insert_updated_nightly_file` reads. -/
structure DocData where
  prediction : Int
  decision_boundary : Int
  url : String
  text : String
  validation : Option Int
  trained : Bool
  deriving DecidableEq, Repr

/-- A `db.Notice` object staged on a session but not yet flushed: its
column values, its `attachments` collection, and the ids of the
`NoticeType` objects appended to its `notice_types` collection (`none`
when the appended object was `None`, in which case no link row is
produced). -/
structure PendingNotice where
  notice_number : String
  agency : String
  notice_data : String
  compliant : Int
  attachments : List DocData
  notice_types : List (Option Nat)
  deriving DecidableEq, Repr

/-- A SQLAlchemy session: the committed state it was opened on plus its
pending new objects (`session.add` accumulates; nothing in this module
flushes before commit). -/
structure Session where
  db : DB
  newTypes : List String
  newNotices : List PendingNotice
  deriving DecidableEq, Repr

/-- Whether a notice-type code is already present in the committed
table. -/
def DB.hasNoticeType (db : DB) (code : String) : Bool :=
  db.notice_types.any (fun r => r.notice_type == code)

/-- Whether a solicitation number is already present in the committed
notice table. -/
def DB.hasNoticeNumber (db : DB) (nn : String) : Bool :=
  db.notices.any (fun r => r.notice_number == nn)

/-- Flush pending `NoticeType` rows.  Modelled from the spec: the unique
constraint on the code column is part of the missing `utils/db/db.py`
schema (spec §3: "a notice-type code is unique"). -/
def commitTypes : DB → List String → Except DbErr DB
  | db, [] => .ok db
  | db, c :: cs =>
    if db.hasNoticeType c then .error .uniqueViolation
    else
      commitTypes
        { db with
          notice_types := db.notice_types ++ [⟨db.next_notice_type_id, c⟩]
          next_notice_type_id := db.next_notice_type_id + 1 }
        cs

/-- Insert the attachment rows of one notice, consuming serial ids. -/
def insertAttachments (nid : Nat) : DB → List DocData → DB
  | db, [] => db
  | db, d :: ds =>
    insertAttachments nid
      { db with
        attachments := db.attachments ++
          [⟨db.next_attachment_id, nid, d.prediction, d.decision_boundary,
            d.url, d.text, d.validation, d.trained⟩]
        next_attachment_id := db.next_attachment_id + 1 }
      ds

/-- Flush one pending notice with its attachment children and notice-type
links.  Modelled from the spec: the uniqueness of the solicitation number
and the save-update cascade onto `attachments` / `notice_types` are part
of the missing `utils/db/db.py` schema (spec §3). -/
def commitNotice (db : DB) (pn : PendingNotice) : Except DbErr DB :=
  if db.hasNoticeNumber pn.notice_number then .error .uniqueViolation
  else
    let nid := db.next_notice_id
    let db1 :=
      { db with
        notices := db.notices ++
          [⟨nid, pn.notice_number, pn.agency, pn.notice_data, pn.compliant⟩]
        next_notice_id := nid + 1 }
    let db2 := insertAttachments nid db1 pn.attachments
    .ok { db2 with
          links := db2.links ++
            (pn.notice_types.filterMap id).map (fun t => ⟨nid, t⟩) }

/-- Flush all pending notices in order; the first failure aborts the
whole transaction. -/
def commitNotices : DB → List PendingNotice → Except DbErr DB
  | db, [] => .ok db
  | db, pn :: pns =>
    match commitNotice db pn with
    | .error e => .error e
    | .ok db1 => commitNotices db1 pns

/-- `session.commit()`: flush pending rows atomically — on any error the
transaction is rolled back and the committed state is unchanged (the
caller keeps the old `DB`). -/
def Session.commit (s : Session) : Except DbErr DB :=
  match commitTypes s.db s.newTypes with
  | .error e => .error e
  | .ok db1 => commitNotices db1 s.newNotices

/-- The session methods `session_scope` may call on an exit path. -/
inductive SEvent where
  | commit
  | rollback
  | close
  deriving DecidableEq, Repr

/-- The observable outcome of one `with session_scope(dal) as s:` block:
the value or re-raised exception, the committed state afterwards, and the
session methods called, in order. -/
structure ScopeOutcome (α : Type) where
  result : Except PyErr α
  db : DB
  events : List SEvent
  deriving Repr

/-- `session_scope`: open a fresh session on the committed state, run the
body; on normal completion call `commit` (a commit failure is caught,
rolled back and re-raised); on a body exception call `rollback` and
re-raise the same exception; `close` runs in the `finally` on every
path. -/
def session_scope {α : Type} (db : DB)
    (body : Session → Except PyErr (α × Session)) : ScopeOutcome α :=
  match body { db := db, newTypes := [], newNotices := [] } with
  | .error e => { result := .error e, db := db, events := [.rollback, .close] }
  | .ok (a, s1) =>
    match s1.commit with
    | .error ce =>
      { result := .error (.dbError ce), db := db
        events := [.commit, .rollback, .close] }
    | .ok db1 => { result := .ok a, db := db1, events := [.commit, .close] }

/-! ### Lookup helpers -/

/-- `fetch_notice_type_id`: `query(NoticeType.id).filter(...).first()` on
the session's visible rows, then `.id`; the `AttributeError` on an empty
result (`None.id`) is caught and converted to `None`, which `Option.map`
renders directly. -/
def fetch_notice_type_id (notice_type : String) (s : Session) : Option Nat :=
  (s.db.notice_types.find? (fun r => r.notice_type == notice_type)).map
    (fun r => r.id)

/-- `fetch_notice_type_by_id`: `query(NoticeType).get(notice_type_id)`.
The call site can pass `None`, for which `get` finds no row. -/
def fetch_notice_type_by_id (notice_type_id : Option Nat) (s : Session) :
    Option NoticeTypeRow :=
  match notice_type_id with
  | none => none
  | some i => s.db.notice_types.find? (fun r => r.id == i)

/-- `fetch_notice_id`: first notice with the given solicitation number,
projected to its id; absence becomes `None` via the caught
`AttributeError`. -/
def fetch_notice_id (notice_number : String) (s : Session) : Option Nat :=
  (s.db.notices.find? (fun r => r.notice_number == notice_number)).map
    (fun r => r.id)

/-- `fetch_notice_by_id`: `query(Notice).get(notice_id)`. -/
def fetch_notice_by_id (notice_id : Option Nat) (s : Session) :
    Option NoticeRow :=
  match notice_id with
  | none => none
  | some i => s.db.notices.find? (fun r => r.id == i)

/-! ### Seeding and ingestion -/

/-- The five fixed notice-type codes, in source order. -/
def noticeTypeCodes : List String := ["MOD", "COMBINE", "PRESOL", "AMDCSS", "TRAIN"]

/-- Python falsiness of the fetched id (`if not notice_type_id:`): `None`
and `0` both count as absent. -/
def optFalsy : Option Nat → Bool
  | none => true
  | some n => n == 0

/-- The `for notice_type in [...]` loop body of `add_notice_types`: check
existence inside its own `session_scope(dal)` (which sees `dalDb`, the
committed state), and stage the row on the caller's session when the
check came back falsy. -/
def addTypesLoop (dalDb : DB) : Session → List String → Session
  | sess, [] => sess
  | sess, code :: rest =>
    let scope := session_scope dalDb
      (fun s => .ok (fetch_notice_type_id code s, s))
    let notice_type_id : Option Nat :=
      match scope.result with
      | .ok v => v
      | .error _ => none
    addTypesLoop dalDb
      (if optFalsy notice_type_id then
        { sess with newTypes := sess.newTypes ++ [code] }
      else sess)
      rest

/-- `add_notice_types(dal, session)`: run the loop over the five fixed
codes. -/
def add_notice_types (dalDb : DB) (session : Session) : Session :=
  addTypesLoop dalDb session noticeTypeCodes

/-- The record fields `insert_updated_nightly_file` pops from each
`notice_data` dict: `attachments`, `agency`, `compliant`, `solnbr` (the
remaining keys of the dict are unused — the row's `notice_data` column is
hard-set to `'test'`). -/
structure RecordData where
  solnbr : String
  agency : String
  compliant : Int
  attachments : List DocData
  deriving DecidableEq, Repr

/-- Build the `db.Notice` object for one record: column values (with
`notice_data = 'test'`), the appended attachment children, and the one
appended notice-type object. -/
def noticeFromRecord (obj : Option NoticeTypeRow) (rec : RecordData) :
    PendingNotice :=
  { notice_number := rec.solnbr
    agency := rec.agency
    notice_data := "test"
    compliant := rec.compliant
    attachments := rec.attachments
    notice_types := [obj.map (fun r => r.id)] }

/-- One iteration of the inner record loop: resolve the notice-type
object in its own scope, build the notice with its attachments, and
commit it in its own scope.  Returns the committed state and the
re-raised exception, if any. -/
def ingestRecord (db : DB) (notice_type_id : Option Nat) (rec : RecordData) :
    DB × Except PyErr Unit :=
  let objScope := session_scope db
    (fun s => .ok (fetch_notice_type_by_id notice_type_id s, s))
  match objScope.result with
  | .error e => (objScope.db, .error e)
  | .ok obj =>
    let pn := noticeFromRecord obj rec
    let addScope := session_scope objScope.db
      (fun s => .ok ((), { s with newNotices := s.newNotices ++ [pn] }))
    match addScope.result with
    | .error e => (addScope.db, .error e)
    | .ok _ => (addScope.db, .ok ())

/-- The inner record loop: an exception from any iteration propagates,
leaving the states committed so far in place. -/
def ingestRecords (db : DB) (notice_type_id : Option Nat) :
    List RecordData → DB × Except PyErr Unit
  | [] => (db, .ok ())
  | rec :: recs =>
    match ingestRecord db notice_type_id rec with
    | (db1, .ok _) => ingestRecords db1 notice_type_id recs
    | (db1, .error e) => (db1, .error e)

/-- The outer per-notice-type loop: resolve the code's id in its own
scope, then run the record loop. -/
def ingestEntries : DB → List (String × List RecordData) → DB × Except PyErr Unit
  | db, [] => (db, .ok ())
  | db, (code, recs) :: rest =>
    let idScope := session_scope db
      (fun s => .ok (fetch_notice_type_id code s, s))
    match idScope.result with
    | .error e => (idScope.db, .error e)
    | .ok ntId =>
      match ingestRecords idScope.db ntId recs with
      | (db1, .ok _) => ingestEntries db1 rest
      | (db1, .error e) => (db1, .error e)

/-- The opening `with session_scope(dal) as s: add_notice_types(dal, s)`
of `insert_updated_nightly_file`, also the seeding pattern of §4.5. -/
def seedNoticeTypes (db : DB) : DB × Except PyErr Unit :=
  let scope := session_scope db (fun s => .ok ((), add_notice_types db s))
  (scope.db, scope.result.map (fun _ => ()))

/-- `insert_updated_nightly_file`: seed the notice types, then ingest the
payload entry by entry; the first re-raised exception aborts the run,
keeping everything committed before it. -/
def insert_updated_nightly_file (db : DB)
    (payload : List (String × List RecordData)) : DB × Except PyErr Unit :=
  match seedNoticeTypes db with
  | (db1, .error e) => (db1, .error e)
  | (db1, .ok _) => ingestEntries db1 payload

/-! ### Aggregate queries -/

/-- SQL `SUM` over a column: `NULL` on the empty set, the sum otherwise. -/
def sqlSumInt (l : List Int) : Option Int :=
  if l.isEmpty then none else some l.sum

/-- Python `int(x)` on a `scalar()` result: `int(None)` raises
`TypeError`. -/
def pyInt : Option Int → Except PyErr Int
  | none => .error .typeError
  | some n => .ok n

/-- `get_validation_count`: `COUNT(attachment.validation)` counts the
rows whose nullable validation is non-null (and is `0`, never `NULL`, on
an empty table). -/
def get_validation_count (db : DB) : Except PyErr Int :=
  pyInt (some ((db.attachments.countP (fun a => a.validation.isSome) : Nat) : Int))

/-- `get_trained_amount`: `SUM(CASE WHEN trained THEN 1 ELSE 0 END)`,
then `int(...)` on the scalar. -/
def get_trained_amount (db : DB) : Except PyErr Int :=
  pyInt (sqlSumInt (db.attachments.map (fun a => if a.trained then (1 : Int) else 0)))

/-- `get_complaint_amount`: `SUM(notice.compliant)`, then `int(...)` on
the scalar. -/
def get_complaint_amount (db : DB) : Except PyErr Int :=
  pyInt (sqlSumInt (db.notices.map (fun r => r.compliant)))

/-- The notice-type rows produced by flushing the codes `cs` starting at
serial id `n` (helper for stating what `commitTypes` inserts). -/
def typeRowsFrom : Nat → List String → List NoticeTypeRow
  | _, [] => []
  | n, c :: cs => ⟨n, c⟩ :: typeRowsFrom (n + 1) cs

/-- `revalidation_check`: return `1` when the validated count exceeds the
trained sum by strictly more than 1000, else `0`; exceptions from the two
aggregates propagate. -/
def revalidation_check (db : DB) : Except PyErr Int :=
  match get_validation_count db with
  | .error e => .error e
  | .ok v =>
    match get_trained_amount db with
    | .error e => .error e
    | .ok t => if v - t > 1000 then .ok 1 else .ok 0

/-- The state `commitTypes` produces when seeding the five fixed codes
into a state not containing any of them. -/
def seededDB (db0 : DB) : DB :=
  { db0 with
    notice_types := db0.notice_types ++
      typeRowsFrom db0.next_notice_type_id noticeTypeCodes
    next_notice_type_id := db0.next_notice_type_id + noticeTypeCodes.length }

/-- The notice-type table after seeding the fresh schema. -/
def seededTypes : List NoticeTypeRow :=
  [⟨1, "MOD"⟩, ⟨2, "COMBINE"⟩, ⟨3, "PRESOL"⟩, ⟨4, "AMDCSS"⟩, ⟨5, "TRAIN"⟩]

/-- The attachment row produced for one attachment dict of a notice. -/
def attRow (i nid : Nat) (d : DocData) : AttachmentRow :=
  ⟨i, nid, d.prediction, d.decision_boundary, d.url, d.text, d.validation, d.trained⟩

/-! ### Concrete fixtures used to exhibit behaviors on explicit inputs -/

/-- Fixture: a committed state already holding one notice with
solicitation number "A". -/
def dbW : DB :=
  { emptyDB with notices := [⟨1, "A", "ag", "test", 1⟩], next_notice_id := 2 }

/-- Fixture: a record whose solicitation number collides with the notice
already committed in `dbW`. -/
def recA : RecordData :=
  { solnbr := "A", agency := "ag", compliant := 1, attachments := [] }

/-- Fixture: two attachment dicts. -/
def docW1 : DocData :=
  { prediction := 1, decision_boundary := 0, url := "u1", text := "t1"
    validation := some 1, trained := true }

def docW2 : DocData :=
  { prediction := 0, decision_boundary := 0, url := "u2", text := "t2"
    validation := none, trained := false }

/-- Fixture: one record with two attachments. -/
def recW : RecordData :=
  { solnbr := "N1", agency := "GSA", compliant := 1
    attachments := [docW1, docW2] }

/-- Fixture: a committed state with a single attachment row. -/
def dbA : DB :=
  { emptyDB with
    attachments := [⟨1, 1, 1, 0, "u", "t", some 1, false⟩]
    next_attachment_id := 2 }

/-! ### Reduction lemmas for the concrete scope bodies -/

/-- A read-only body (no `add`) commits an empty pending set: the
committed state is unchanged and the body's value is returned. -/
theorem session_scope_read {α : Type} (db : DB) (f : Session → α) :
    session_scope db (fun s => .ok (f s, s)) =
      { result := .ok (f { db := db, newTypes := [], newNotices := [] })
        db := db, events := [.commit, .close] } := rfl

/-- A body that stages exactly one notice commits it alone: the scope
either persists it or re-raises leaving the state unchanged. -/
theorem session_scope_add_one (db : DB) (pn : PendingNotice) :
    session_scope db (fun s => .ok ((), { s with newNotices := s.newNotices ++ [pn] })) =
      (match commitNotice db pn with
      | .ok db1 => { result := .ok (), db := db1, events := [.commit, .close] }
      | .error e => { result := .error (.dbError e), db := db
                      events := [.commit, .rollback, .close] }) := by
  cases h : commitNotice db pn <;>
    simp [session_scope, Session.commit, commitTypes, commitNotices, h]

/-- One record iteration is exactly one `commitNotice` on the notice
built from the record. -/
theorem ingestRecord_eq (db : DB) (ntId : Option Nat) (rec : RecordData) :
    ingestRecord db ntId rec =
      (match commitNotice db (noticeFromRecord
          (fetch_notice_type_by_id ntId { db := db, newTypes := [], newNotices := [] }) rec) with
      | .ok db1 => (db1, .ok ())
      | .error e => (db, .error (.dbError e))) := by
  cases h : commitNotice db (noticeFromRecord
      (fetch_notice_type_by_id ntId { db := db, newTypes := [], newNotices := [] }) rec) <;>
    simp [ingestRecord, session_scope_read, session_scope_add_one, h]

/-! ### Structural facts about the flush helpers -/

theorem insertAttachments_notices (nid : Nat) (ds : List DocData) :
    ∀ db : DB, (insertAttachments nid db ds).notices = db.notices := by
  induction ds with
  | nil => intro db; rfl
  | cons d ds ih => intro db; rw [insertAttachments]; exact ih _

theorem insertAttachments_links (nid : Nat) (ds : List DocData) :
    ∀ db : DB, (insertAttachments nid db ds).links = db.links := by
  induction ds with
  | nil => intro db; rfl
  | cons d ds ih => intro db; rw [insertAttachments]; exact ih _

theorem insertAttachments_length (nid : Nat) (ds : List DocData) :
    ∀ db : DB,
      (insertAttachments nid db ds).attachments.length =
        db.attachments.length + ds.length := by
  induction ds with
  | nil => intro db; rfl
  | cons d ds ih =>
    intro db
    rw [insertAttachments, ih]
    simp
    omega

theorem insertAttachments_mono (nid : Nat) (ds : List DocData) :
    ∀ (db : DB) (a : AttachmentRow),
      a ∈ db.attachments → a ∈ (insertAttachments nid db ds).attachments := by
  induction ds with
  | nil => intro db a h; exact h
  | cons d ds ih =>
    intro db a h
    rw [insertAttachments]
    exact ih _ a (by simp [h])

theorem insertAttachments_mem (nid : Nat) (ds : List DocData) :
    ∀ (db : DB) (a : AttachmentRow),
      a ∈ (insertAttachments nid db ds).attachments →
        a ∈ db.attachments ∨ a.notice_id = nid := by
  induction ds with
  | nil => intro db a h; exact Or.inl h
  | cons d ds ih =>
    intro db a h
    rw [insertAttachments] at h
    rcases ih _ a h with hmem | hnid
    · rcases List.mem_append.mp hmem with hdb | hnew
      · exact Or.inl hdb
      · simp at hnew
        subst hnew
        exact Or.inr rfl
    · exact Or.inr hnid

/-- What a successful per-notice flush produces: the notice row appended,
its attachments appended with its foreign key, its link rows appended,
and everything previously committed retained. -/
theorem commitNotice_ok (db : DB) (pn : PendingNotice) (db1 : DB)
    (h : commitNotice db pn = .ok db1) :
    db1.notices = db.notices ++
        [⟨db.next_notice_id, pn.notice_number, pn.agency, pn.notice_data, pn.compliant⟩]
  ∧ (∀ a ∈ db.attachments, a ∈ db1.attachments)
  ∧ (∀ a ∈ db1.attachments, a ∈ db.attachments ∨ a.notice_id = db.next_notice_id)
  ∧ db1.attachments.length = db.attachments.length + pn.attachments.length
  ∧ db1.links = db.links ++
      (pn.notice_types.filterMap id).map (fun t => ⟨db.next_notice_id, t⟩) := by
  unfold commitNotice at h
  by_cases hd : db.hasNoticeNumber pn.notice_number
  · simp [hd] at h
  · simp only [hd, Bool.false_eq_true, if_false, Except.ok.injEq] at h
    subst h
    refine ⟨?_, ?_, ?_, ?_, ?_⟩
    · exact insertAttachments_notices _ _ _
    · intro a ha
      exact insertAttachments_mono _ _ _ a ha
    · intro a ha
      have h2 := insertAttachments_mem _ _ _ a ha
      exact h2
    · exact insertAttachments_length _ _ _
    · rw [insertAttachments_links]

theorem commitTypes_ok_preserves (cs : List String) :
    ∀ db db1 : DB, commitTypes db cs = .ok db1 →
      db1.notices = db.notices ∧ db1.attachments = db.attachments ∧
        db1.links = db.links := by
  induction cs with
  | nil =>
    intro db db1 h
    cases h
    exact ⟨rfl, rfl, rfl⟩
  | cons c cs ih =>
    intro db db1 h
    unfold commitTypes at h
    by_cases hd : db.hasNoticeType c
    · simp [hd] at h
    · simp only [hd, Bool.false_eq_true, if_false] at h
      have h3 := ih _ _ h
      exact h3

/-- Flushing a duplicate-free batch of codes none of which is already
present succeeds and appends exactly the corresponding rows with
consecutive serial ids. -/
theorem commitTypes_fresh (cs : List String) :
    ∀ db : DB, (∀ c ∈ cs, db.hasNoticeType c = false) → cs.Nodup →
      commitTypes db cs = .ok
        { db with
          notice_types := db.notice_types ++ typeRowsFrom db.next_notice_type_id cs
          next_notice_type_id := db.next_notice_type_id + cs.length } := by
  induction cs with
  | nil =>
    intro db _ _
    simp [commitTypes, typeRowsFrom]
  | cons c cs ih =>
    intro db hfresh hnodup
    have hc : db.hasNoticeType c = false := hfresh c (by simp)
    unfold commitTypes
    rw [hc]
    simp only [Bool.false_eq_true, if_false]
    have hfresh2 : ∀ c2 ∈ cs,
        (DB.hasNoticeType
          { db with
            notice_types := db.notice_types ++ [⟨db.next_notice_type_id, c⟩]
            next_notice_type_id := db.next_notice_type_id + 1 } c2) = false := by
      intro c2 hc2
      have hne : c ≠ c2 := by
        intro hcc
        subst hcc
        exact (List.nodup_cons.mp hnodup).1 hc2
      have hd := hfresh c2 (by simp [hc2])
      simp only [DB.hasNoticeType, List.any_eq_false] at hd ⊢
      intro r hr
      rcases List.mem_append.mp hr with hro | hrn
      · exact hd r hro
      · simp at hrn
        subst hrn
        simp
        intro hcc
        exact hne hcc
    have h4 := ih _ hfresh2 (List.nodup_cons.mp hnodup).2
    rw [h4]
    simp [typeRowsFrom]
    omega

/-- The seeding loop only stages notice-type codes: the session's
committed snapshot and pending notices are untouched. -/
theorem addTypesLoop_inv (dalDb : DB) (codes : List String) :
    ∀ sess : Session, (addTypesLoop dalDb sess codes).db = sess.db ∧
      (addTypesLoop dalDb sess codes).newNotices = sess.newNotices := by
  induction codes with
  | nil => intro sess; exact ⟨rfl, rfl⟩
  | cons c cs ih =>
    intro sess
    unfold addTypesLoop
    rcases ih (if optFalsy (match (session_scope dalDb
        (fun s => .ok (fetch_notice_type_id c s, s))).result with
        | .ok v => v
        | .error _ => none) then
        { sess with newTypes := sess.newTypes ++ [c] }
      else sess) with ⟨h1, h2⟩
    constructor
    · rw [h1]
      by_cases hb : optFalsy (match (session_scope dalDb
          (fun s => .ok (fetch_notice_type_id c s, s))).result with
          | .ok v => v
          | .error _ => none)
      · rw [if_pos hb]
      · rw [if_neg hb]
    · rw [h2]
      by_cases hb : optFalsy (match (session_scope dalDb
          (fun s => .ok (fetch_notice_type_id c s, s))).result with
          | .ok v => v
          | .error _ => none)
      · rw [if_pos hb]
      · rw [if_neg hb]

/-- `session.commit()` on a session with no pending notices is just the
notice-type flush. -/
theorem commit_of_types (s : Session) (h : s.newNotices = []) :
    s.commit = commitTypes s.db s.newTypes := by
  unfold Session.commit
  rw [h]
  cases htc : commitTypes s.db s.newTypes <;> simp [commitNotices]

/-- The seeding scope reduces to a `commitTypes` over the codes staged by
the loop. -/
theorem seed_eq (db : DB) :
    seedNoticeTypes db =
      (match commitTypes db (add_notice_types db
          { db := db, newTypes := [], newNotices := [] }).newTypes with
      | .ok db1 => (db1, .ok ())
      | .error e => (db, .error (.dbError e))) := by
  have h := addTypesLoop_inv db noticeTypeCodes
    { db := db, newTypes := [], newNotices := [] }
  unfold seedNoticeTypes
  simp only [session_scope]
  unfold add_notice_types
  rw [commit_of_types _ h.2]
  rw [h.1]
  cases htc : commitTypes db (addTypesLoop db
      { db := db, newTypes := [], newNotices := [] } noticeTypeCodes).newTypes <;>
    simp [Except.map]

/-- Seeding never touches the notice, attachment or link tables. -/
theorem seed_preserves (db : DB) :
    ((seedNoticeTypes db).1.notices = db.notices) ∧
      ((seedNoticeTypes db).1.attachments = db.attachments) := by
  rw [seed_eq]
  cases htc : commitTypes db (add_notice_types db
      { db := db, newTypes := [], newNotices := [] }).newTypes with
  | error e => simp
  | ok db1 =>
    have hp := commitTypes_ok_preserves _ _ _ htc
    simp [hp.1, hp.2.1]

/-! ### Per-notice transaction facts for the ingestion workflow -/

/-- Unfolding equation for one step of the record loop. -/
theorem ingestRecords_cons (db : DB) (ntId : Option Nat) (r : RecordData)
    (recs : List RecordData) :
    ingestRecords db ntId (r :: recs) =
      (match ingestRecord db ntId r with
       | (db1, .ok _) => ingestRecords db1 ntId recs
       | (db1, .error e) => (db1, .error e)) := rfl

/-- A failed per-notice scope leaves the committed state unchanged. -/
theorem ingestRecord_err (db : DB) (ntId : Option Nat) (rec : RecordData)
    (e : PyErr) (h : (ingestRecord db ntId rec).2 = .error e) :
    (ingestRecord db ntId rec).1 = db := by
  rw [ingestRecord_eq] at h ⊢
  cases hc : commitNotice db (noticeFromRecord
      (fetch_notice_type_by_id ntId { db := db, newTypes := [], newNotices := [] }) rec) <;>
    simp [hc] at h ⊢

theorem ingestRecord_notices (db : DB) (ntId : Option Nat) (rec : RecordData) :
    (∀ r ∈ db.notices, r ∈ (ingestRecord db ntId rec).1.notices)
  ∧ (∀ a ∈ db.attachments, a ∈ (ingestRecord db ntId rec).1.attachments)
  ∧ (∀ r ∈ (ingestRecord db ntId rec).1.notices,
      r ∈ db.notices ∨ r.notice_data = "test") := by
  rw [ingestRecord_eq]
  cases hc : commitNotice db (noticeFromRecord
      (fetch_notice_type_by_id ntId { db := db, newTypes := [], newNotices := [] }) rec) with
  | error e =>
    exact ⟨fun r hr => hr, fun a ha => ha, fun r hr => Or.inl hr⟩
  | ok db1 =>
    have hs := commitNotice_ok _ _ _ hc
    refine ⟨?_, ?_, ?_⟩
    · intro r hr
      simp [hs.1, hr]
    · intro a ha
      simpa using hs.2.1 a ha
    · intro r hr
      simp only [hs.1, List.mem_append, List.mem_singleton] at hr
      rcases hr with hold | hnew
      · exact Or.inl hold
      · subst hnew
        exact Or.inr rfl

theorem ingestRecords_notices (ntId : Option Nat) (recs : List RecordData) :
    ∀ db : DB,
      (∀ r ∈ db.notices, r ∈ (ingestRecords db ntId recs).1.notices)
    ∧ (∀ a ∈ db.attachments, a ∈ (ingestRecords db ntId recs).1.attachments)
    ∧ (∀ r ∈ (ingestRecords db ntId recs).1.notices,
        r ∈ db.notices ∨ r.notice_data = "test") := by
  induction recs with
  | nil =>
    intro db
    exact ⟨fun r hr => hr, fun a ha => ha, fun r hr => Or.inl hr⟩
  | cons rec recs ih =>
    intro db
    have hstep := ingestRecord_notices db ntId rec
    unfold ingestRecords
    rcases hpair : ingestRecord db ntId rec with ⟨db1, res⟩
    rw [hpair] at hstep
    cases res with
    | error e =>
      simpa using hstep
    | ok u =>
      have htail := ih db1
      refine ⟨?_, ?_, ?_⟩
      · intro r hr
        exact htail.1 r (hstep.1 r hr)
      · intro a ha
        exact htail.2.1 a (hstep.2.1 a ha)
      · intro r hr
        rcases htail.2.2 r hr with h1 | h2
        · exact hstep.2.2 r h1
        · exact Or.inr h2

theorem ingestEntries_notices (payload : List (String × List RecordData)) :
    ∀ db : DB,
      (∀ r ∈ db.notices, r ∈ (ingestEntries db payload).1.notices)
    ∧ (∀ a ∈ db.attachments, a ∈ (ingestEntries db payload).1.attachments)
    ∧ (∀ r ∈ (ingestEntries db payload).1.notices,
        r ∈ db.notices ∨ r.notice_data = "test") := by
  induction payload with
  | nil =>
    intro db
    exact ⟨fun r hr => hr, fun a ha => ha, fun r hr => Or.inl hr⟩
  | cons entry rest ih =>
    intro db
    rcases entry with ⟨code, recs⟩
    unfold ingestEntries
    rw [session_scope_read]
    simp only []
    have hrecs := ingestRecords_notices
      (fetch_notice_type_id code { db := db, newTypes := [], newNotices := [] }) recs db
    rcases hpair : ingestRecords db (fetch_notice_type_id code
        { db := db, newTypes := [], newNotices := [] }) recs with ⟨db1, res⟩
    rw [hpair] at hrecs
    cases res with
    | error e =>
      simpa using hrecs
    | ok u =>
      have htail := ih db1
      refine ⟨?_, ?_, ?_⟩
      · intro r hr
        exact htail.1 r (hrecs.1 r hr)
      · intro a ha
        exact htail.2.1 a (hrecs.2.1 a ha)
      · intro r hr
        rcases htail.2.2 r hr with h1 | h2
        · exact hrecs.2.2 r h1
        · exact Or.inr h2

theorem nightly_notices (db : DB) (payload : List (String × List RecordData)) :
    (∀ r ∈ db.notices, r ∈ (insert_updated_nightly_file db payload).1.notices)
  ∧ (∀ a ∈ db.attachments,
      a ∈ (insert_updated_nightly_file db payload).1.attachments)
  ∧ (∀ r ∈ (insert_updated_nightly_file db payload).1.notices,
      r ∈ db.notices ∨ r.notice_data = "test") := by
  have hseed := seed_preserves db
  unfold insert_updated_nightly_file
  rcases hpair : seedNoticeTypes db with ⟨db1, res⟩
  rw [hpair] at hseed
  cases res with
  | error e =>
    simp only [] at hseed ⊢
    exact ⟨fun r hr => hseed.1 ▸ hr, fun a ha => hseed.2 ▸ ha,
      fun r hr => Or.inl (hseed.1 ▸ hr)⟩
  | ok u =>
    have hrest := ingestEntries_notices payload db1
    simp only [] at hseed
    refine ⟨?_, ?_, ?_⟩
    · intro r hr
      exact hrest.1 r (hseed.1 ▸ hr)
    · intro a ha
      exact hrest.2.1 a (hseed.2 ▸ ha)
    · intro r hr
      rcases hrest.2.2 r hr with h1 | h2
      · exact Or.inl (hseed.1 ▸ h1)
      · exact Or.inr h2

/-- When a run of the record loop reaches a notice whose own commit
fails, the loop stops with exactly the state committed by the earlier
iterations. -/
theorem ingestRecords_append_fail (ntId : Option Nat) (rec : RecordData)
    (recs2 : List RecordData) :
    ∀ (recs1 : List RecordData) (db db1 db2 : DB) (e : PyErr),
      ingestRecords db ntId recs1 = (db1, .ok ())
      → ingestRecord db1 ntId rec = (db2, .error e)
      → ingestRecords db ntId (recs1 ++ rec :: recs2) = (db1, .error e) := by
  intro recs1
  induction recs1 with
  | nil =>
    intro db db1 db2 e h1 h2
    have hdb : db = db1 := by
      unfold ingestRecords at h1
      exact (Prod.mk.injEq _ _ _ _).mp h1 |>.1
    subst hdb
    have hfix : db2 = db := by
      have := ingestRecord_err db ntId rec e (by rw [h2])
      rw [h2] at this
      exact this
    subst hfix
    rw [List.nil_append, ingestRecords_cons, h2]
  | cons r rs ih =>
    intro db db1 db2 e h1 h2
    rw [ingestRecords_cons] at h1
    rw [List.cons_append, ingestRecords_cons]
    rcases hpair : ingestRecord db ntId r with ⟨dbx, resx⟩
    simp only [hpair] at h1 ⊢
    cases resx with
    | error e2 => simp at h1
    | ok u => exact ih dbx db1 db2 e h1 h2

/-- The SQL `CASE WHEN trained THEN 1 ELSE 0` summation equals a count
of the rows whose trained flag is set. -/
theorem sum_trained_indicator (l : List AttachmentRow) :
    (l.map (fun a => if a.trained then (1 : Int) else 0)).sum =
      (l.countP (fun a => a.trained) : Int) := by
  induction l with
  | nil => simp
  | cons a l ih =>
    rw [List.map_cons, List.sum_cons, List.countP_cons, ih]
    by_cases h : a.trained
    · simp [h]
      omega
    · simp [h]

/-- If a predicate finds nothing in a prefix, searching the
concatenation searches the suffix. -/
theorem find?_append_of_none {α : Type} (p : α → Bool) (l1 l2 : List α)
    (h : l1.find? p = none) : (l1 ++ l2).find? p = l2.find? p := by
  induction l1 with
  | nil => rfl
  | cons a l ih =>
    cases hpa : p a
    · simp only [List.find?, hpa] at h ⊢
      exact ih h
    · simp only [List.find?, hpa] at h
      exact Option.noConfusion h

/-! ### Claim theorems -/

/-- C1: for every unit of work run under `session_scope`, a body that
completes normally has `commit` invoked on the session (and on commit
success the committed state becomes the commit's result); a body that
raises has the session rolled back, its committed state unchanged, and
the very same exception re-raised; a commit failure is itself rolled
back and re-raised; and on every exit path `close` runs exactly once. -/
theorem session_scope_contract {α : Type} (db : DB)
    (body : Session → Except PyErr (α × Session)) :
    ((session_scope db body).events.count SEvent.close = 1)
  ∧ (∀ e, body { db := db, newTypes := [], newNotices := [] } = .error e →
      (session_scope db body).result = .error e
      ∧ SEvent.rollback ∈ (session_scope db body).events
      ∧ SEvent.commit ∉ (session_scope db body).events
      ∧ (session_scope db body).db = db)
  ∧ (∀ a s1, body { db := db, newTypes := [], newNotices := [] } = .ok (a, s1) →
      SEvent.commit ∈ (session_scope db body).events
      ∧ (∀ db1, s1.commit = .ok db1 →
          (session_scope db body).result = .ok a
          ∧ SEvent.rollback ∉ (session_scope db body).events
          ∧ (session_scope db body).db = db1)
      ∧ (∀ ce, s1.commit = .error ce →
          (session_scope db body).result = .error (.dbError ce)
          ∧ SEvent.rollback ∈ (session_scope db body).events
          ∧ (session_scope db body).db = db)) := by
  cases hb : body { db := db, newTypes := [], newNotices := [] } with
  | error e =>
    have hs : session_scope db body =
        { result := .error e, db := db
          events := [SEvent.rollback, SEvent.close] } := by
      simp only [session_scope, hb]
    rw [hs]
    refine ⟨rfl, ?_, ?_⟩
    · intro e2 he2
      cases he2
      exact ⟨rfl, by simp, by simp, rfl⟩
    · intro a s1 hok
      cases hok
  | ok p =>
    rcases p with ⟨a, s1⟩
    cases hc : s1.commit with
    | error ce =>
      have hs : session_scope db body =
          { result := .error (.dbError ce), db := db
            events := [SEvent.commit, SEvent.rollback, SEvent.close] } := by
        simp only [session_scope, hb, hc]
      rw [hs]
      refine ⟨rfl, ?_, ?_⟩
      · intro e2 he2
        cases he2
      · intro a2 s2 hok
        injection hok with hpair
        injection hpair with h1 h2
        subst h1
        subst h2
        refine ⟨by simp, ?_, ?_⟩
        · intro db1 hdb1
          rw [hdb1] at hc
          cases hc
        · intro ce2 hce2
          rw [hce2] at hc
          injection hc with h3
          subst h3
          exact ⟨rfl, by simp, rfl⟩
    | ok db1 =>
      have hs : session_scope db body =
          { result := .ok a, db := db1
            events := [SEvent.commit, SEvent.close] } := by
        simp only [session_scope, hb, hc]
      rw [hs]
      refine ⟨rfl, ?_, ?_⟩
      · intro e2 he2
        cases he2
      · intro a2 s2 hok
        injection hok with hpair
        injection hpair with h1 h2
        subst h1
        subst h2
        refine ⟨by simp, ?_, ?_⟩
        · intro db2 hdb2
          rw [hdb2] at hc
          injection hc with h3
          subst h3
          exact ⟨rfl, by simp, rfl⟩
        · intro ce2 hce2
          rw [hce2] at hc
          cases hc

/-- C1 witness: on a concrete normal body the scope commits and closes
once; on a concrete raising body the same exception comes back. -/
theorem session_scope_contract_witness :
    (session_scope emptyDB (fun s => Except.ok ((0 : Nat), s))).result = .ok 0
  ∧ (session_scope (α := Nat) emptyDB
      (fun _ => Except.error PyErr.typeError)).result = .error PyErr.typeError
  ∧ (session_scope emptyDB
      (fun s => Except.ok ((0 : Nat), s))).events.count SEvent.close = 1 := by
  have h1 := session_scope_contract emptyDB (fun s => Except.ok ((0 : Nat), s))
  have h2 := session_scope_contract (α := Nat) emptyDB
    (fun _ => Except.error PyErr.typeError)
  refine ⟨?_, ?_, h1.1⟩
  · exact ((h1.2.2 0 { db := emptyDB, newTypes := [], newNotices := [] }
      rfl).2.1 emptyDB rfl).1
  · exact (h2.2.1 PyErr.typeError rfl).1

/-- C2: each notice together with its attachments is committed in its
own transaction scope: a per-notice commit failure leaves the committed
state unchanged for that notice; a record-loop run that hits such a
failure stops with exactly the state the earlier iterations committed;
and rows committed before an ingestion call survive the whole call. -/
theorem nightly_per_notice_transaction (db : DB) (ntId : Option Nat)
    (recs1 recs2 : List RecordData) (rec : RecordData)
    (payload : List (String × List RecordData)) :
    (∀ e, (ingestRecord db ntId rec).2 = .error e →
      (ingestRecord db ntId rec).1 = db)
  ∧ (∀ (db1 db2 : DB) (e : PyErr),
      ingestRecords db ntId recs1 = (db1, .ok ())
      → ingestRecord db1 ntId rec = (db2, .error e)
      → ingestRecords db ntId (recs1 ++ rec :: recs2) = (db1, .error e))
  ∧ (∀ r ∈ db.notices, r ∈ (insert_updated_nightly_file db payload).1.notices)
  ∧ (∀ a ∈ db.attachments,
      a ∈ (insert_updated_nightly_file db payload).1.attachments) :=
  ⟨fun e he => ingestRecord_err db ntId rec e he,
   fun db1 db2 e h1 h2 => ingestRecords_append_fail ntId rec recs2 recs1 db db1 db2 e h1 h2,
   (nightly_notices db payload).1,
   (nightly_notices db payload).2.1⟩

/-- C2 witness: ingesting a record whose solicitation number already
exists fails its own commit and leaves the committed state exactly as it
was. -/
theorem nightly_per_notice_transaction_witness :
    (ingestRecord dbW (some 1) recA).1 = dbW
  ∧ ingestRecords dbW (some 1) ([] ++ recA :: []) =
      (dbW, .error (.dbError .uniqueViolation)) := by
  have h := nightly_per_notice_transaction dbW (some 1) [] [] recA []
  exact ⟨h.1 (.dbError .uniqueViolation) rfl, h.2.1 dbW dbW _ rfl rfl⟩

/-- C4: contrary to the spec's scheme normalization, `get_db_url`
returns a plain `postgresql://` URL unchanged: the replacement pattern
in the source is the literal string backslash-`postgresql` (an
unintended Python string escape), which a well-formed URL never
contains. -/
theorem get_db_url_scheme_not_normalized :
    get_db_url { vcap_application := some "x"
                 database_url := some "postgresql://localhost/db"
                 test_db_url := none } = .ok "postgresql://localhost/db"
  ∧ "postgresql://localhost/db" ≠ "postgresql+psycopg2://localhost/db" :=
  ⟨rfl, by decide⟩

/-- C5 counterexample: with the platform indicator set and the
production URL unset, `get_db_url` raises `AttributeError`
(`None.replace`) inside the function instead of returning a string. -/
theorem get_db_url_raises_on_unset_database_url :
    get_db_url { vcap_application := some "cf", database_url := none
                 test_db_url := none } = .error .attributeError := rfl

/-- C5 amended: `get_db_url` returns a string for every environment
assignment except when the platform indicator is truthy while the
production URL variable is unset, in which case it raises
`AttributeError`; it never validates the URL's contents. -/
theorem get_db_url_total_unless_vcap_without_url (env : PyEnv)
    (h : ¬(truthy env.vcap_application = true ∧ env.database_url = none)) :
    ∃ s, get_db_url env = .ok s := by
  by_cases hv : truthy env.vcap_application = true
  · cases henv : env.database_url with
    | none => exact absurd ⟨hv, henv⟩ h
    | some u =>
      exact ⟨pyReplace u "\\postgresql" "postgresql+psycopg2",
        by simp [get_db_url, hv, henv]⟩
  · by_cases ht : truthy env.test_db_url = true
    · cases henv : env.test_db_url with
      | none =>
        rw [henv] at ht
        exact absurd ht (by simp [truthy])
      | some u =>
        rw [henv] at ht
        exact ⟨pyReplace u "\\postgresql" "postgresql+psycopg2",
          by simp [get_db_url, hv, henv, ht]⟩
    · exact ⟨pyReplace "" "\\postgresql" "postgresql+psycopg2",
        by simp [get_db_url, hv, ht]⟩

/-- C5 amended witness: with no environment variables set, `get_db_url`
returns a string. -/
theorem get_db_url_total_unless_vcap_without_url_witness :
    ∃ s, get_db_url { vcap_application := none, database_url := none
                      test_db_url := none } = .ok s :=
  get_db_url_total_unless_vcap_without_url _ (by decide)

/-- C10: SQL `SUM` over an empty table yields `NULL`, and the final
`int(...)` raises `TypeError`: with no attachment rows
`get_trained_amount` raises rather than returning 0, and with no notice
rows `get_complaint_amount` raises rather than returning 0. -/
theorem aggregate_sum_raises_on_empty (db : DB) :
    (db.attachments = [] → get_trained_amount db = .error .typeError)
  ∧ (db.notices = [] → get_complaint_amount db = .error .typeError) := by
  constructor
  · intro h
    simp [get_trained_amount, sqlSumInt, pyInt, h]
  · intro h
    simp [get_complaint_amount, sqlSumInt, pyInt, h]

/-- C10 witness: on the freshly created schema both aggregates raise. -/
theorem aggregate_sum_raises_on_empty_witness :
    get_trained_amount emptyDB = .error .typeError
  ∧ get_complaint_amount emptyDB = .error .typeError :=
  ⟨(aggregate_sum_raises_on_empty emptyDB).1 rfl,
   (aggregate_sum_raises_on_empty emptyDB).2 rfl⟩

/-- C3: every single-row lookup returns `None` — without raising, the
absent-row `AttributeError` being converted to `None` — exactly when no
matching row exists; otherwise `fetch_notice_type_id` / `fetch_notice_id`
return the first matching row's id and `fetch_notice_type_by_id` /
`fetch_notice_by_id` return the row with that primary key. -/
theorem fetch_lookup_contracts (s : Session) (code nn : String) (tid nid : Nat) :
    (fetch_notice_type_id code s = none ↔
      ∀ r ∈ s.db.notice_types, r.notice_type ≠ code)
  ∧ (∀ i, fetch_notice_type_id code s = some i →
      ∃ r ∈ s.db.notice_types, r.notice_type = code ∧ r.id = i)
  ∧ (fetch_notice_type_by_id (some tid) s = none ↔
      ∀ r ∈ s.db.notice_types, r.id ≠ tid)
  ∧ (∀ r, fetch_notice_type_by_id (some tid) s = some r →
      r ∈ s.db.notice_types ∧ r.id = tid)
  ∧ (fetch_notice_id nn s = none ↔
      ∀ r ∈ s.db.notices, r.notice_number ≠ nn)
  ∧ (∀ i, fetch_notice_id nn s = some i →
      ∃ r ∈ s.db.notices, r.notice_number = nn ∧ r.id = i)
  ∧ (fetch_notice_by_id (some nid) s = none ↔
      ∀ r ∈ s.db.notices, r.id ≠ nid)
  ∧ (∀ r, fetch_notice_by_id (some nid) s = some r →
      r ∈ s.db.notices ∧ r.id = nid) := by
  refine ⟨?_, ?_, ?_, ?_, ?_, ?_, ?_, ?_⟩
  · simp [fetch_notice_type_id, Option.map_eq_none', List.find?_eq_none]
  · intro i h
    rw [fetch_notice_type_id, Option.map_eq_some'] at h
    rcases h with ⟨r, hr, hid⟩
    refine ⟨r, List.mem_of_find?_eq_some hr, ?_, hid⟩
    have hp := List.find?_some hr
    simpa using hp
  · simp [fetch_notice_type_by_id, List.find?_eq_none]
  · intro r h
    rw [fetch_notice_type_by_id] at h
    refine ⟨List.mem_of_find?_eq_some h, ?_⟩
    have hp := List.find?_some h
    simpa using hp
  · simp [fetch_notice_id, Option.map_eq_none', List.find?_eq_none]
  · intro i h
    rw [fetch_notice_id, Option.map_eq_some'] at h
    rcases h with ⟨r, hr, hid⟩
    refine ⟨r, List.mem_of_find?_eq_some hr, ?_, hid⟩
    have hp := List.find?_some hr
    simpa using hp
  · simp [fetch_notice_by_id, List.find?_eq_none]
  · intro r h
    rw [fetch_notice_by_id] at h
    refine ⟨List.mem_of_find?_eq_some h, ?_⟩
    have hp := List.find?_some h
    simpa using hp

/-- C3 witness: on a state holding one notice numbered "A" with id 1,
the absent lookups return `None` and the present ones return the row. -/
theorem fetch_lookup_contracts_witness :
    fetch_notice_type_id "MOD" { db := dbW, newTypes := [], newNotices := [] } = none
  ∧ (∃ r ∈ dbW.notices, r.notice_number = "A" ∧ r.id = 1)
  ∧ (⟨1, "A", "ag", "test", 1⟩ : NoticeRow) ∈ dbW.notices := by
  have h := fetch_lookup_contracts
    { db := dbW, newTypes := [], newNotices := [] } "MOD" "A" 1 1
  refine ⟨h.1.mpr (by simp [dbW, emptyDB]), h.2.2.2.2.2.1 1 rfl, ?_⟩
  exact (h.2.2.2.2.2.2.2 ⟨1, "A", "ag", "test", 1⟩ rfl).1

/-- C8: every notice row `insert_updated_nightly_file` persists (i.e.
every row of the final state not already committed beforehand) has its
`notice_data` column equal to the literal string "test", whatever the
payload contained. -/
theorem nightly_notice_data_is_test (db : DB)
    (payload : List (String × List RecordData)) :
    ∀ r ∈ (insert_updated_nightly_file db payload).1.notices,
      r ∈ db.notices ∨ r.notice_data = "test" :=
  (nightly_notices db payload).2.2

/-- C8 witness: the notice ingested from a concrete payload carries
`notice_data = "test"`. -/
theorem nightly_notice_data_is_test_witness :
    (⟨1, "N1", "GSA", "test", 1⟩ : NoticeRow) ∈ emptyDB.notices ∨
      (⟨1, "N1", "GSA", "test", 1⟩ : NoticeRow).notice_data = "test" :=
  nightly_notice_data_is_test emptyDB [("MOD", [recW])]
    ⟨1, "N1", "GSA", "test", 1⟩
    (by rw [show (insert_updated_nightly_file emptyDB
        [("MOD", [recW])]).1.notices = [⟨1, "N1", "GSA", "test", 1⟩] from rfl]
        simp)

/-- C9: whenever the attachment table is non-empty (so the trained sum
is not `NULL`, the empty case being the subject of the claim about
`get_trained_amount`), `revalidation_check` returns 1 exactly when the
validated count exceeds the trained count by strictly more than 1000,
and 0 otherwise — so a difference of 1000 yields 0 and 1001 yields 1. -/
theorem revalidation_check_threshold (db : DB) (h : db.attachments ≠ []) :
    revalidation_check db =
      .ok (if 1000 <
          (db.attachments.countP (fun a => a.validation.isSome) : Int) -
            (db.attachments.countP (fun a => a.trained) : Int)
        then 1 else 0) := by
  rcases hatt : db.attachments with _ | ⟨a0, l⟩
  · exact absurd hatt h
  · unfold revalidation_check get_validation_count get_trained_amount pyInt sqlSumInt
    rw [hatt]
    rw [show ((a0 :: l).map
        (fun a => if a.trained then (1 : Int) else 0)).isEmpty = false from rfl]
    simp only [if_false, Bool.false_eq_true]
    rw [sum_trained_indicator]
    split_ifs with hcond
    · rfl
    · rfl

/-- C9 witness: on a state with one validated, untrained attachment the
difference is 1 and the check returns 0. -/
theorem revalidation_check_threshold_witness :
    revalidation_check dbA = .ok 0 := by
  have hthm := revalidation_check_threshold dbA (by simp [dbA, emptyDB])
  rw [hthm]
  rfl

/-- C6: from a state where none of the five fixed codes is present (and
serial ids have started at 1, as database serials do), one committed run
of the seeding scope succeeds and makes `fetch_notice_type_id` return a
non-null id for each of MOD, COMBINE, PRESOL, AMDCSS and TRAIN; a second
run from the resulting state is a no-op — the state, in particular the
notice_type table, is unchanged, so no duplicate rows appear. -/
theorem add_notice_types_seeds_then_noop (db0 : DB)
    (h1 : ∀ r ∈ db0.notice_types, r.notice_type ∉ noticeTypeCodes)
    (h2 : 1 ≤ db0.next_notice_type_id) :
    (seedNoticeTypes db0).2 = .ok ()
  ∧ (∀ c ∈ noticeTypeCodes, ∃ i, fetch_notice_type_id c
      { db := (seedNoticeTypes db0).1, newTypes := [], newNotices := [] } = some i)
  ∧ seedNoticeTypes (seedNoticeTypes db0).1 = ((seedNoticeTypes db0).1, .ok ()) := by
  have hpre : ∀ c ∈ noticeTypeCodes,
      db0.notice_types.find? (fun r => r.notice_type == c) = none := by
    intro c hc
    rw [List.find?_eq_none]
    intro r hr
    simp only [beq_iff_eq]
    intro hrc
    exact h1 r hr (hrc ▸ hc)
  have hfetch0 : ∀ c ∈ noticeTypeCodes,
      fetch_notice_type_id c { db := db0, newTypes := [], newNotices := [] } = none := by
    intro c hc
    rw [fetch_notice_type_id, Option.map_eq_none']
    exact hpre c hc
  have hM := hfetch0 "MOD" (by simp [noticeTypeCodes])
  have hC := hfetch0 "COMBINE" (by simp [noticeTypeCodes])
  have hP := hfetch0 "PRESOL" (by simp [noticeTypeCodes])
  have hA := hfetch0 "AMDCSS" (by simp [noticeTypeCodes])
  have hT := hfetch0 "TRAIN" (by simp [noticeTypeCodes])
  have hloop : add_notice_types db0 { db := db0, newTypes := [], newNotices := [] } =
      { db := db0, newTypes := noticeTypeCodes, newNotices := [] } := by
    unfold add_notice_types
    simp only [noticeTypeCodes, addTypesLoop, session_scope_read, hM, hC, hP, hA, hT,
      optFalsy, if_true, List.nil_append, List.cons_append, List.append_nil]
  have hfresh : ∀ c ∈ noticeTypeCodes, db0.hasNoticeType c = false := by
    intro c hc
    simp only [DB.hasNoticeType, List.any_eq_false]
    intro r hr
    simp only [beq_iff_eq]
    intro hrc
    exact h1 r hr (hrc ▸ hc)
  have hcommit : commitTypes db0 noticeTypeCodes = .ok (seededDB db0) :=
    commitTypes_fresh noticeTypeCodes db0 hfresh (by decide)
  have hseed1 : seedNoticeTypes db0 = (seededDB db0, .ok ()) := by
    rw [seed_eq]
    simp only [hloop]
    rw [hcommit]
  have hfM : fetch_notice_type_id "MOD"
      { db := seededDB db0, newTypes := [], newNotices := [] } =
      some db0.next_notice_type_id := by
    show ((db0.notice_types ++
        typeRowsFrom db0.next_notice_type_id noticeTypeCodes).find?
          (fun r => r.notice_type == "MOD")).map (fun r => r.id) =
      some db0.next_notice_type_id
    rw [find?_append_of_none _ _ _ (hpre "MOD" (by simp [noticeTypeCodes]))]
    rfl
  have hfC : fetch_notice_type_id "COMBINE"
      { db := seededDB db0, newTypes := [], newNotices := [] } =
      some (db0.next_notice_type_id + 1) := by
    show ((db0.notice_types ++
        typeRowsFrom db0.next_notice_type_id noticeTypeCodes).find?
          (fun r => r.notice_type == "COMBINE")).map (fun r => r.id) =
      some (db0.next_notice_type_id + 1)
    rw [find?_append_of_none _ _ _ (hpre "COMBINE" (by simp [noticeTypeCodes]))]
    rfl
  have hfP : fetch_notice_type_id "PRESOL"
      { db := seededDB db0, newTypes := [], newNotices := [] } =
      some (db0.next_notice_type_id + 1 + 1) := by
    show ((db0.notice_types ++
        typeRowsFrom db0.next_notice_type_id noticeTypeCodes).find?
          (fun r => r.notice_type == "PRESOL")).map (fun r => r.id) =
      some (db0.next_notice_type_id + 1 + 1)
    rw [find?_append_of_none _ _ _ (hpre "PRESOL" (by simp [noticeTypeCodes]))]
    rfl
  have hfA : fetch_notice_type_id "AMDCSS"
      { db := seededDB db0, newTypes := [], newNotices := [] } =
      some (db0.next_notice_type_id + 1 + 1 + 1) := by
    show ((db0.notice_types ++
        typeRowsFrom db0.next_notice_type_id noticeTypeCodes).find?
          (fun r => r.notice_type == "AMDCSS")).map (fun r => r.id) =
      some (db0.next_notice_type_id + 1 + 1 + 1)
    rw [find?_append_of_none _ _ _ (hpre "AMDCSS" (by simp [noticeTypeCodes]))]
    rfl
  have hfT : fetch_notice_type_id "TRAIN"
      { db := seededDB db0, newTypes := [], newNotices := [] } =
      some (db0.next_notice_type_id + 1 + 1 + 1 + 1) := by
    show ((db0.notice_types ++
        typeRowsFrom db0.next_notice_type_id noticeTypeCodes).find?
          (fun r => r.notice_type == "TRAIN")).map (fun r => r.id) =
      some (db0.next_notice_type_id + 1 + 1 + 1 + 1)
    rw [find?_append_of_none _ _ _ (hpre "TRAIN" (by simp [noticeTypeCodes]))]
    rfl
  have hn0 : (db0.next_notice_type_id == 0) = false := by
    simp only [beq_eq_false_iff_ne, ne_eq]
    omega
  have hloop2 : add_notice_types (seededDB db0)
      { db := seededDB db0, newTypes := [], newNotices := [] } =
      { db := seededDB db0, newTypes := [], newNotices := [] } := by
    unfold add_notice_types
    simp only [noticeTypeCodes, addTypesLoop, session_scope_read, hfM, hfC, hfP, hfA, hfT,
      optFalsy, hn0, Nat.add_eq_zero, Nat.succ_ne_zero, beq_iff_eq, and_false,
      decide_False, if_false, Bool.false_eq_true]
  have hseed2 : seedNoticeTypes (seededDB db0) = (seededDB db0, .ok ()) := by
    rw [seed_eq]
    simp only [hloop2]
    rfl
  refine ⟨by rw [hseed1], ?_, ?_⟩
  · intro c hc
    simp only [noticeTypeCodes, List.mem_cons, List.not_mem_nil, or_false] at hc
    rw [hseed1]
    rcases hc with rfl | rfl | rfl | rfl | rfl
    · exact ⟨db0.next_notice_type_id, hfM⟩
    · exact ⟨db0.next_notice_type_id + 1, hfC⟩
    · exact ⟨db0.next_notice_type_id + 1 + 1, hfP⟩
    · exact ⟨db0.next_notice_type_id + 1 + 1 + 1, hfA⟩
    · exact ⟨db0.next_notice_type_id + 1 + 1 + 1 + 1, hfT⟩
  · rw [hseed1]
    exact hseed2

/-- C6 witness: on the fresh empty schema, seeding succeeds and MOD gets
an id. -/
theorem add_notice_types_seeds_then_noop_witness :
    (seedNoticeTypes emptyDB).2 = .ok ()
  ∧ (∃ i, fetch_notice_type_id "MOD"
      { db := (seedNoticeTypes emptyDB).1, newTypes := [], newNotices := [] } = some i) := by
  have h := add_notice_types_seeds_then_noop emptyDB
    (by simp [emptyDB]) (by simp [emptyDB])
  exact ⟨h.1, h.2.1 "MOD" (by simp [noticeTypeCodes])⟩

/-- C7: ingesting into the fresh schema a payload with exactly one known
notice-type code mapped to one record with two attachments persists
exactly one Notice row, exactly one NoticeType link for that notice, and
exactly two Attachment rows, both carrying that notice's foreign key. -/
theorem nightly_single_record_shape (code : String) (rec : RecordData)
    (hcode : code ∈ noticeTypeCodes) (hatt : rec.attachments.length = 2) :
    ∃ nrow : NoticeRow,
      (insert_updated_nightly_file emptyDB [(code, [rec])]).2 = .ok ()
    ∧ (insert_updated_nightly_file emptyDB [(code, [rec])]).1.notices = [nrow]
    ∧ (insert_updated_nightly_file emptyDB [(code, [rec])]).1.attachments.length = 2
    ∧ (∀ a ∈ (insert_updated_nightly_file emptyDB [(code, [rec])]).1.attachments,
        a.notice_id = nrow.id)
    ∧ (insert_updated_nightly_file emptyDB [(code, [rec])]).1.links.length = 1
    ∧ (∀ lk ∈ (insert_updated_nightly_file emptyDB [(code, [rec])]).1.links,
        lk.notice_id = nrow.id) := by
  obtain ⟨ns, ag, co, atts⟩ := rec
  obtain ⟨d1, d2, hd⟩ := List.length_eq_two.mp hatt
  change atts = [d1, d2] at hd
  subst hd
  simp only [noticeTypeCodes, List.mem_cons, List.not_mem_nil, or_false] at hcode
  rcases hcode with rfl | rfl | rfl | rfl | rfl
  · have hrun : insert_updated_nightly_file emptyDB
        [("MOD", [{ solnbr := ns, agency := ag, compliant := co
                    attachments := [d1, d2] }])] =
      ({ notice_types := seededTypes
         notices := [⟨1, ns, ag, "test", co⟩]
         attachments := [attRow 1 1 d1, attRow 2 1 d2]
         links := [⟨1, 1⟩]
         next_notice_type_id := 6, next_notice_id := 2
         next_attachment_id := 3 }, .ok ()) := rfl
    refine ⟨⟨1, ns, ag, "test", co⟩, ?_, ?_, ?_, ?_, ?_, ?_⟩ <;> rw [hrun]
    · rfl
    · intro a ha
      simp only [List.mem_cons, List.not_mem_nil, or_false] at ha
      rcases ha with rfl | rfl <;> rfl
    · rfl
    · intro lk hlk
      simp only [List.mem_cons, List.not_mem_nil, or_false] at hlk
      subst hlk
      rfl
  · have hrun : insert_updated_nightly_file emptyDB
        [("COMBINE", [{ solnbr := ns, agency := ag, compliant := co
                        attachments := [d1, d2] }])] =
      ({ notice_types := seededTypes
         notices := [⟨1, ns, ag, "test", co⟩]
         attachments := [attRow 1 1 d1, attRow 2 1 d2]
         links := [⟨1, 2⟩]
         next_notice_type_id := 6, next_notice_id := 2
         next_attachment_id := 3 }, .ok ()) := rfl
    refine ⟨⟨1, ns, ag, "test", co⟩, ?_, ?_, ?_, ?_, ?_, ?_⟩ <;> rw [hrun]
    · rfl
    · intro a ha
      simp only [List.mem_cons, List.not_mem_nil, or_false] at ha
      rcases ha with rfl | rfl <;> rfl
    · rfl
    · intro lk hlk
      simp only [List.mem_cons, List.not_mem_nil, or_false] at hlk
      subst hlk
      rfl
  · have hrun : insert_updated_nightly_file emptyDB
        [("PRESOL", [{ solnbr := ns, agency := ag, compliant := co
                       attachments := [d1, d2] }])] =
      ({ notice_types := seededTypes
         notices := [⟨1, ns, ag, "test", co⟩]
         attachments := [attRow 1 1 d1, attRow 2 1 d2]
         links := [⟨1, 3⟩]
         next_notice_type_id := 6, next_notice_id := 2
         next_attachment_id := 3 }, .ok ()) := rfl
    refine ⟨⟨1, ns, ag, "test", co⟩, ?_, ?_, ?_, ?_, ?_, ?_⟩ <;> rw [hrun]
    · rfl
    · intro a ha
      simp only [List.mem_cons, List.not_mem_nil, or_false] at ha
      rcases ha with rfl | rfl <;> rfl
    · rfl
    · intro lk hlk
      simp only [List.mem_cons, List.not_mem_nil, or_false] at hlk
      subst hlk
      rfl
  · have hrun : insert_updated_nightly_file emptyDB
        [("AMDCSS", [{ solnbr := ns, agency := ag, compliant := co
                       attachments := [d1, d2] }])] =
      ({ notice_types := seededTypes
         notices := [⟨1, ns, ag, "test", co⟩]
         attachments := [attRow 1 1 d1, attRow 2 1 d2]
         links := [⟨1, 4⟩]
         next_notice_type_id := 6, next_notice_id := 2
         next_attachment_id := 3 }, .ok ()) := rfl
    refine ⟨⟨1, ns, ag, "test", co⟩, ?_, ?_, ?_, ?_, ?_, ?_⟩ <;> rw [hrun]
    · rfl
    · intro a ha
      simp only [List.mem_cons, List.not_mem_nil, or_false] at ha
      rcases ha with rfl | rfl <;> rfl
    · rfl
    · intro lk hlk
      simp only [List.mem_cons, List.not_mem_nil, or_false] at hlk
      subst hlk
      rfl
  · have hrun : insert_updated_nightly_file emptyDB
        [("TRAIN", [{ solnbr := ns, agency := ag, compliant := co
                      attachments := [d1, d2] }])] =
      ({ notice_types := seededTypes
         notices := [⟨1, ns, ag, "test", co⟩]
         attachments := [attRow 1 1 d1, attRow 2 1 d2]
         links := [⟨1, 5⟩]
         next_notice_type_id := 6, next_notice_id := 2
         next_attachment_id := 3 }, .ok ()) := rfl
    refine ⟨⟨1, ns, ag, "test", co⟩, ?_, ?_, ?_, ?_, ?_, ?_⟩ <;> rw [hrun]
    · rfl
    · intro a ha
      simp only [List.mem_cons, List.not_mem_nil, or_false] at ha
      rcases ha with rfl | rfl <;> rfl
    · rfl
    · intro lk hlk
      simp only [List.mem_cons, List.not_mem_nil, or_false] at hlk
      subst hlk
      rfl

/-- C7 witness: the concrete one-record, two-attachment MOD payload on
the fresh schema. -/
theorem nightly_single_record_shape_witness :
    ∃ nrow : NoticeRow,
      (insert_updated_nightly_file emptyDB [("MOD", [recW])]).2 = .ok ()
    ∧ (insert_updated_nightly_file emptyDB [("MOD", [recW])]).1.notices = [nrow]
    ∧ (insert_updated_nightly_file emptyDB [("MOD", [recW])]).1.attachments.length = 2
    ∧ (∀ a ∈ (insert_updated_nightly_file emptyDB [("MOD", [recW])]).1.attachments,
        a.notice_id = nrow.id)
    ∧ (insert_updated_nightly_file emptyDB [("MOD", [recW])]).1.links.length = 1
    ∧ (∀ lk ∈ (insert_updated_nightly_file emptyDB [("MOD", [recW])]).1.links,
        lk.notice_id = nrow.id) :=
  nightly_single_record_shape "MOD" recW (by simp [noticeTypeCodes]) rfl

end SrtFbo
